import Mathlib

/-!
Shallow embedding of `src/app.py` (real-time satellite tracker: Flask
handlers over a two-table MySQL store) and verification of its
specification claims.

The mutable database is modelled as an explicit `DB` value threaded
through each handler; SQL statements become list operations
(`ORDER BY timestamp DESC` is a sort by the flipped order, `LIMIT n` is
`take`, `WHERE` is `filter`, the join goes through `List.any`).
JSON request fields are modelled by `JValue`; the Python `int()`,
`float()`, `str.strip()` and truthiness are modelled explicitly so that
the validation paths (caught `ValueError` / `TypeError` versus unhandled
exceptions) can be distinguished.
-/

/-- A JSON value as it arrives in a request body.  Arrays and objects
only record whether they are nonempty (enough for Python truthiness);
their contents never matter in this program. -/
inductive JValue where
  | jnull
  | jbool (b : Bool)
  | jint (n : Int)
  | jnum (q : Rat)
  | jstr (s : String)
  | jarr (nonempty : Bool)
  | jobj (nonempty : Bool)
deriving DecidableEq, Repr

/-- The two Python exception kinds the handlers distinguish. -/
inductive PyErr where
  | valueError
  | typeError
deriving DecidableEq, Repr

/-- Python `str.strip()` on the character list: leading and trailing
whitespace removed. -/
def pyStripChars (cs : List Char) : List Char :=
  ((cs.dropWhile Char.isWhitespace).reverse.dropWhile Char.isWhitespace).reverse

/-- Python `str.strip()`. -/
def pyStrip (s : String) : String :=
  ⟨pyStripChars s.data⟩

/-- Digit/underscore layout check for Python numeric literals: nonempty,
starts and ends with a digit, underscores only singly and between
digits. -/
def usOk : List Char → Bool
  | [] => false
  | [c] => c.isDigit
  | c :: '_' :: cs2 => c.isDigit && usOk cs2
  | c :: c2 :: cs => c.isDigit && usOk (c2 :: cs)

/-- Numeric value of a digit/underscore run (underscores skipped). -/
def digitsVal (cs : List Char) : Nat :=
  (cs.filter Char.isDigit).foldl (fun a c => a * 10 + (c.toNat - 48)) 0

/-- Python `int(s)` on a string: strip whitespace, optional sign, then a
digit run (with Python 3 underscore grouping).  `none` models a raised
`ValueError`. -/
def pyIntOfString (s : String) : Option Int :=
  let cs := pyStripChars s.data
  match cs with
  | '+' :: rest => if usOk rest then some (Int.ofNat (digitsVal rest)) else none
  | '-' :: rest => if usOk rest then some (-(Int.ofNat (digitsVal rest))) else none
  | _ => if usOk cs then some (Int.ofNat (digitsVal cs)) else none

/-- Python `float(s)` on plain decimal literals: optional sign, digits
with an optional fraction part (scientific notation and `inf`/`nan`,
which this application never receives, are outside the modelled input
space).  `none` models a raised `ValueError`. -/
def pyFloatOfString (s : String) : Option Rat :=
  let cs := pyStripChars s.data
  let core : List Char → Option Rat := fun body =>
    let intPart := body.takeWhile Char.isDigit
    let rest := body.dropWhile Char.isDigit
    match rest with
    | [] => if usOk intPart then some ((digitsVal intPart : Int) : Rat) else none
    | '.' :: frac =>
      if (intPart.isEmpty || usOk intPart) && (frac.isEmpty || usOk frac)
          && !(intPart.isEmpty && frac.isEmpty) then
        some (((digitsVal intPart : Int) : Rat) +
          ((digitsVal frac : Int) : Rat) / ((10 ^ (frac.filter Char.isDigit).length : Nat) : Rat))
      else none
    | _ => none
  match cs with
  | '+' :: rest => core rest
  | '-' :: rest => (core rest).map Neg.neg
  | _ => core cs

/-- Python `int(float(x))`: truncation of a rational toward zero. -/
def pyTrunc (q : Rat) : Int :=
  q.num.tdiv q.den

/-- Python `int(v)` on a JSON value.  Strings parse via `pyIntOfString`
(`ValueError` on failure), floats truncate toward zero, booleans give
0/1, and `None`/arrays/objects raise `TypeError`. -/
def pyIntOfJ : JValue → Except PyErr Int
  | .jint n => .ok n
  | .jnum q => .ok (pyTrunc q)
  | .jbool b => .ok (cond b 1 0)
  | .jstr s =>
    match pyIntOfString s with
    | some n => .ok n
    | none => .error .valueError
  | .jnull => .error .typeError
  | .jarr _ => .error .typeError
  | .jobj _ => .error .typeError

/-- Python `int(v)` where `v` may be absent (`data.get` returned
`None`, raising `TypeError`). -/
def pyIntOfJOpt : Option JValue → Except PyErr Int
  | none => .error .typeError
  | some v => pyIntOfJ v

/-- Python `float(v)` on a JSON value. -/
def pyFloatOfJ : JValue → Except PyErr Rat
  | .jint n => .ok (n : Rat)
  | .jnum q => .ok q
  | .jbool b => .ok (cond b 1 0)
  | .jstr s =>
    match pyFloatOfString s with
    | some q => .ok q
    | none => .error .valueError
  | .jnull => .error .typeError
  | .jarr _ => .error .typeError
  | .jobj _ => .error .typeError

/-- Python `float(v)` where `v` may be absent. -/
def pyFloatOfJOpt : Option JValue → Except PyErr Rat
  | none => .error .typeError
  | some v => pyFloatOfJ v

/-- Python truthiness of a JSON value. -/
def jTruthy : JValue → Bool
  | .jnull => false
  | .jbool b => b
  | .jint n => n != 0
  | .jnum q => q != 0
  | .jstr s => s != ""
  | .jarr ne => ne
  | .jobj ne => ne

/-- `v is None` for a request field: absent or JSON `null`. -/
def jIsNone : Option JValue → Bool
  | none => true
  | some .jnull => true
  | _ => false

/-- A row of the `satellites` table. -/
structure Satellite where
  id : Int
  norad_id : Int
  name : String
deriving DecidableEq, Repr

/-- A row of the `positions` table (`altitude_km` and `velocity_kmh`
are nullable columns). -/
structure PositionRow where
  id : Int
  satellite_id : Int
  timestamp : Int
  latitude : Rat
  longitude : Rat
  altitude_km : Option Rat
  velocity_kmh : Option Rat
deriving DecidableEq, Repr

/-- The database state: both tables plus the `AUTO_INCREMENT` counters. -/
structure DB where
  sats : List Satellite
  positions : List PositionRow
  nextSatId : Int
  nextPosId : Int
deriving DecidableEq, Repr

/-- The `UNIQUE` constraint on `satellites.norad_id`. -/
def noradUnique (db : DB) : Prop :=
  db.sats.Pairwise (fun a b => a.norad_id ≠ b.norad_id)

instance (db : DB) : Decidable (noradUnique db) := by
  unfold noradUnique; infer_instance

/-- Primary-key freshness for `positions`. -/
def posIdsFresh (db : DB) : Prop :=
  ∀ p ∈ db.positions, p.id < db.nextPosId

instance (db : DB) : Decidable (posIdsFresh db) := by
  unfold posIdsFresh; infer_instance

/-- `ORDER BY timestamp DESC` as a relation on position rows. -/
def tsGE (a b : PositionRow) : Prop :=
  b.timestamp ≤ a.timestamp

instance : DecidableRel tsGE := fun _ _ => Int.decLe _ _

instance : IsTotal PositionRow tsGE :=
  ⟨fun a b => le_total b.timestamp a.timestamp⟩

instance : IsTrans PositionRow tsGE :=
  ⟨fun _ _ _ h1 h2 => le_trans h2 h1⟩

/-- `SELECT ... ORDER BY timestamp DESC` (ties in unspecified order, as
in SQL; the model fixes one order). -/
def sortByTsDesc (l : List PositionRow) : List PositionRow :=
  List.insertionSort tsGE l

/-- The NORAD catalog id of the tracked object, hard-coded in the
handlers. -/
def issNorad : Int := 25544

/-- The join `positions p JOIN satellites s ON s.id = p.satellite_id
WHERE s.norad_id = 25544`. -/
def issRows (db : DB) : List PositionRow :=
  db.positions.filter
    (fun p => db.sats.any (fun s => s.id == p.satellite_id && s.norad_id == issNorad))

/-- `SELECT ... FROM positions WHERE satellite_id=sid ORDER BY
timestamp DESC LIMIT k` — the read used by `/api/positions`. -/
def positionsFor (db : DB) (sid : Int) (k : Nat) : List PositionRow :=
  (sortByTsDesc (db.positions.filter (fun p => p.satellite_id == sid))).take k

/-- The `limit = max(1, min(limit, 1000))` clamp. -/
def clampLimit (n : Int) : Nat :=
  (max 1 (min n 1000)).toNat

/-- Projection of a stored row to the five response fields selected by
the history and ISS queries. -/
structure HistRow where
  timestamp : Int
  latitude : Rat
  longitude : Rat
  altitude_km : Option Rat
  velocity_kmh : Option Rat
deriving DecidableEq, Repr

/-- The `SELECT p.timestamp, p.latitude, p.longitude, p.altitude_km,
p.velocity_kmh` projection. -/
def projHist (p : PositionRow) : HistRow :=
  ⟨p.timestamp, p.latitude, p.longitude, p.altitude_km, p.velocity_kmh⟩

/-- `get_satellite_id(norad_id, name)` (app.py:71-87).  The `race`
parameter models a record committed by a concurrent request between
the initial `SELECT` and the `INSERT` of this function (the only concurrency
hazard the code handles): when present, it is appended to the table
before the insert is attempted, and the insert raises `IntegrityError`
exactly when the `norad_id` uniqueness constraint is then violated, in
which case the code re-fetches and returns the winning key. -/
def get_satellite_id (db : DB) (race : Option Satellite) (norad : Int) (name : String) :
    Int × DB :=
  match db.sats.find? (fun s => s.norad_id == norad) with
  | some s => (s.id, db)
  | none =>
    let db1 : DB :=
      match race with
      | none => db
      | some rs =>
        { db with sats := db.sats ++ [rs], nextSatId := max db.nextSatId (rs.id + 1) }
    match db1.sats.find? (fun s => s.norad_id == norad) with
    | some s => (s.id, db1)
    | none =>
      (db1.nextSatId,
        { db1 with
          sats := db1.sats ++ [⟨db1.nextSatId, norad, name⟩],
          nextSatId := db1.nextSatId + 1 })

/-- The upstream payload as parsed by `r.json()` plus the `float()`
coercions on the success path of `api_iss` (app.py:122-128): `name`,
`altitude` and `velocity` use `data.get` and may be absent. -/
structure Payload where
  name : Option String
  timestamp : Rat
  latitude : Rat
  longitude : Rat
  altitude : Option Rat
  velocity : Option Rat
deriving DecidableEq, Repr

/-- Response of `GET /api/iss`: a live reading, a cached reading, or
the 502 error body (failed to fetch ISS position). -/
inductive IssRes where
  | live (ts : Int) (lat lon alt vel : Rat)
  | cache (ts : Int) (lat lon : Rat) (alt vel : Option Rat)
  | gatewayError
deriving DecidableEq, Repr

/-- `api_iss` (app.py:90-145).  `fetch = none` models any exception
inside the `try` block (network error, timeout, HTTP error status, or
a body `r.json()` cannot parse); `fetch = some d` is a successful
fetch. -/
def api_iss (db : DB) (fetch : Option Payload) : IssRes × DB :=
  match fetch with
  | none =>
    match sortByTsDesc (issRows db) with
    | [] => (.gatewayError, db)
    | r :: _ =>
      (.cache r.timestamp r.latitude r.longitude r.altitude_km r.velocity_kmh, db)
  | some d =>
    let res := get_satellite_id db none issNorad (d.name.getD "ISS")
    let sid := res.1
    let db1 := res.2
    let ts := pyTrunc d.timestamp
    let alt := d.altitude.getD 0
    let vel := d.velocity.getD 0
    let row : PositionRow :=
      ⟨db1.nextPosId, sid, ts, d.latitude, d.longitude, some alt, some vel⟩
    (.live ts d.latitude d.longitude alt vel,
      { db1 with positions := db1.positions ++ [row], nextPosId := db1.nextPosId + 1 })

/-- Response of `GET /api/history`: the JSON row array, or an unhandled
exception (Flask 500).  A 400 constructor is included to express where
a client-error response would live; this handler never produces one. -/
inductive HistoryRes where
  | rows (rs : List HistRow)
  | badRequest (msg : String)
  | unhandled
deriving DecidableEq, Repr

/-- The query of `api_history` (app.py:152-165) at an already-parsed
integer limit: newest `clampLimit n` joined rows, then `rows.reverse()`
to present oldest-to-newest. -/
def historyRows (db : DB) (n : Int) : List HistRow :=
  (((sortByTsDesc (issRows db)).take (clampLimit n)).map projHist).reverse

/-- `api_history` (app.py:147-165).  The `limit` query parameter
arrives as a string; `int` of the raw limit (app.py:150) is not inside
any `try`, so an unparsable value propagates as an unhandled
`ValueError`. -/
def api_history (db : DB) (rawLimit : Option String) : HistoryRes :=
  match rawLimit with
  | none => .rows (historyRows db 50)
  | some s =>
    match pyIntOfString s with
    | some n => .rows (historyRows db n)
    | none => .unhandled

/-- Response of `POST /api/satellites`. -/
inductive SatCreateRes where
  | badRequest (msg : String)
  | conflict
  | unhandled
  | created (id : Int) (norad : Int) (name : String)
deriving DecidableEq, Repr

/-- The name field coercion `(data.get(name) or empty).strip()` of
app.py:236: falsy values
become the empty string; `.strip()` on a truthy non-string raises an unhandled
`AttributeError`. -/
def nameField : Option JValue → Except Unit String
  | none => .ok ""
  | some v =>
    if jTruthy v then
      match v with
      | .jstr s => .ok (pyStrip s)
      | _ => .error ()
    else .ok ""

/-- `create_satellite` (app.py:233-253). -/
def create_satellite (db : DB) (name norad : Option JValue) : SatCreateRes × DB :=
  match nameField name with
  | .error _ => (.unhandled, db)
  | .ok nm =>
    if nm == "" || jIsNone norad then
      (.badRequest "name and norad_id are required", db)
    else
      match pyIntOfJOpt norad with
      | .error .valueError => (.badRequest "norad_id must be integer", db)
      | .error .typeError => (.unhandled, db)
      | .ok n =>
        if db.sats.any (fun s => s.norad_id == n) then
          (.conflict, db)
        else
          (.created db.nextSatId n nm,
            { db with
              sats := db.sats ++ [⟨db.nextSatId, n, nm⟩],
              nextSatId := db.nextSatId + 1 })

/-- Response of the update and delete handlers. -/
inductive UpdateRes where
  | badRequest (msg : String)
  | conflict
  | notFound
  | updated
  | deleted
deriving DecidableEq, Repr

/-- A well-typed partial-update body for `PUT /api/satellites/<sid>`:
each field either absent or present with a value of the accepted
type. -/
structure SatPatch where
  name : Option String
  norad_id : Option Int
deriving DecidableEq, Repr

/-- The row produced by `UPDATE satellites SET <fields> WHERE id=sid`
on the target row: present patch fields overwrite, absent ones are
kept (a supplied name is stripped of surrounding whitespace). -/
def applySatPatch (p : SatPatch) (s : Satellite) : Satellite :=
  { s with
    name := (p.name.map pyStrip).getD s.name,
    norad_id := p.norad_id.getD s.norad_id }

/-- `update_satellite` (app.py:255-280).  The single `UPDATE` raises
`IntegrityError` (409) exactly when it matches the target row and sets
`norad_id` to a value another row already holds.  `cursor.rowcount`
under PyMySQL defaults counts *changed* rows, so 404 is returned
exactly when the statement changed nothing (absent target, or a no-op
patch). -/
def update_satellite (db : DB) (sid : Int) (p : SatPatch) : UpdateRes × DB :=
  if p.name.isNone && p.norad_id.isNone then
    (.badRequest "no fields to update", db)
  else
    let hasTarget := db.sats.any (fun s => s.id == sid)
    let conflict :=
      hasTarget &&
        (match p.norad_id with
          | some n => db.sats.any (fun s => s.norad_id == n && s.id != sid)
          | none => false)
    if conflict then (.conflict, db)
    else
      let sats2 := db.sats.map (fun s => if s.id == sid then applySatPatch p s else s)
      if sats2 = db.sats then (.notFound, db)
      else (.updated, { db with sats := sats2 })

/-- `delete_satellite` (app.py:282-291) together with the
`ON DELETE CASCADE` foreign key of the schema (app.py:60-61): deleting
a satellite row also deletes its position rows. -/
def delete_satellite (db : DB) (sid : Int) : UpdateRes × DB :=
  if db.sats.any (fun s => s.id == sid) then
    (.deleted,
      { db with
        sats := db.sats.filter (fun s => s.id != sid),
        positions := db.positions.filter (fun p => p.satellite_id != sid) })
  else (.notFound, db)

/-- Response of `GET /api/positions`. -/
inductive PosListRes where
  | rows (rs : List PositionRow)
  | badRequest (msg : String)
  | unhandled
deriving DecidableEq, Repr

/-- Truthiness of an optional query-string parameter
(`request.args.get` yields `None` when absent). -/
def truthyArg : Option String → Bool
  | none => false
  | some s => s != ""

/-- `list_positions` (app.py:294-334).  Query parameters arrive as
strings; `int` of the raw limit at line 298 is not inside
any `try`, so an unparsable limit propagates as an unhandled
`ValueError`. -/
def list_positions (db : DB) (satIdArg noradArg limitArg : Option String) : PosListRes :=
  match (match limitArg with | none => some (50 : Int) | some s => pyIntOfString s) with
  | none => .unhandled
  | some lim =>
    let k := clampLimit lim
    if truthyArg noradArg && !truthyArg satIdArg then
      match pyIntOfString (noradArg.getD "") with
      | none => .badRequest "norad_id must be integer"
      | some nid =>
        match db.sats.find? (fun s => s.norad_id == nid) with
        | none => .rows []
        | some s => .rows (positionsFor db s.id k)
    else if !truthyArg satIdArg then
      .badRequest "satellite_id or norad_id required"
    else
      match pyIntOfString (satIdArg.getD "") with
      | none => .badRequest "satellite_id must be integer"
      | some sid => .rows (positionsFor db sid k)

/-- The recognized fields of a `POST /api/positions` body.  (The model
identifies a request with its recognized fields; `not data` is the
all-absent request.) -/
structure PosReq where
  satellite_id : Option JValue
  timestamp : Option JValue
  latitude : Option JValue
  longitude : Option JValue
  altitude_km : Option JValue
  velocity_kmh : Option JValue
deriving DecidableEq, Repr

/-- Response of `POST /api/positions`. -/
inductive PosCreateRes where
  | badRequest (msg : String)
  | notFound
  | unhandled
  | created (r : PositionRow)
deriving DecidableEq, Repr

/-- The sentinel membership test on the timestamp field (app.py:348;
the tuple holds None, the empty string, the string zero, and the
integer 0), using Python `==` across types: `None`, those two strings, and any
value numerically equal to `0` (including `False` and `0.0`) match. -/
def tsSentinel : Option JValue → Bool
  | none => true
  | some .jnull => true
  | some (.jstr s) => s == "" || s == "0"
  | some (.jint n) => n == 0
  | some (.jnum q) => q == 0
  | some (.jbool b) => !b
  | some (.jarr _) => false
  | some (.jobj _) => false

/-- The sentinel membership test (None or empty string) used for
`altitude_km` and `velocity_kmh` (app.py:364-365): only `None` and the
empty string match under Python `==` (numbers never equal a string). -/
def nullSentinel : Option JValue → Bool
  | none => true
  | some .jnull => true
  | some (.jstr s) => s == ""
  | _ => false

/-- `create_position` (app.py:336-384).  `now` is `int(time.time())` at
the moment of the request.  `int(ts)` at line 352 catches only
`ValueError`, and the `float()` calls for `altitude_km`/`velocity_kmh`
at lines 364-365 are not guarded at all, so `TypeError` (and for
altitude/velocity also `ValueError`) propagates unhandled. -/
def create_position (db : DB) (now : Int) (req : PosReq) : PosCreateRes × DB :=
  if req.satellite_id.isNone && req.timestamp.isNone && req.latitude.isNone &&
      req.longitude.isNone && req.altitude_km.isNone && req.velocity_kmh.isNone then
    (.badRequest "no data provided", db)
  else
    match pyIntOfJOpt req.satellite_id with
    | .error _ => (.badRequest "satellite_id is required (int)", db)
    | .ok sid =>
      let tsRes : Except PosCreateRes Int :=
        if tsSentinel req.timestamp then .ok now
        else
          match pyIntOfJOpt req.timestamp with
          | .ok n => .ok n
          | .error .valueError => .error (.badRequest "timestamp must be unix seconds")
          | .error .typeError => .error .unhandled
      match tsRes with
      | .error e => (e, db)
      | .ok ts =>
        match pyFloatOfJOpt req.latitude, pyFloatOfJOpt req.longitude with
        | .error _, _ => (.badRequest "latitude and longitude are required numbers", db)
        | _, .error _ => (.badRequest "latitude and longitude are required numbers", db)
        | .ok lat, .ok lon =>
          let altRes : Except Unit (Option Rat) :=
            if nullSentinel req.altitude_km then .ok none
            else
              match pyFloatOfJOpt req.altitude_km with
              | .ok q => .ok (some q)
              | .error _ => .error ()
          let velRes : Except Unit (Option Rat) :=
            if nullSentinel req.velocity_kmh then .ok none
            else
              match pyFloatOfJOpt req.velocity_kmh with
              | .ok q => .ok (some q)
              | .error _ => .error ()
          match altRes, velRes with
          | .error _, _ => (.unhandled, db)
          | _, .error _ => (.unhandled, db)
          | .ok altVal, .ok velVal =>
            if db.sats.any (fun s => s.id == sid) then
              let row : PositionRow := ⟨db.nextPosId, sid, ts, lat, lon, altVal, velVal⟩
              (.created row,
                { db with
                  positions := db.positions ++ [row],
                  nextPosId := db.nextPosId + 1 })
            else (.notFound, db)

/-- A well-typed partial-update body for `PUT /api/positions/<pid>`:
`altitude_km`/`velocity_kmh` may be present-and-null (stored as SQL
`NULL`). -/
structure PosPatch where
  timestamp : Option Int
  latitude : Option Rat
  longitude : Option Rat
  altitude_km : Option (Option Rat)
  velocity_kmh : Option (Option Rat)
deriving DecidableEq, Repr

/-- The row produced by `UPDATE positions SET <fields> WHERE id=pid`
on the target row. -/
def applyPosPatch (p : PosPatch) (r : PositionRow) : PositionRow :=
  { r with
    timestamp := p.timestamp.getD r.timestamp,
    latitude := p.latitude.getD r.latitude,
    longitude := p.longitude.getD r.longitude,
    altitude_km := p.altitude_km.getD r.altitude_km,
    velocity_kmh := p.velocity_kmh.getD r.velocity_kmh }

/-- `update_position_row` (app.py:386-423).  As for satellites,
`rowcount` counts changed rows, so 404 means the statement changed
nothing. -/
def update_position_row (db : DB) (pid : Int) (p : PosPatch) : UpdateRes × DB :=
  if p.timestamp.isNone && p.latitude.isNone && p.longitude.isNone &&
      p.altitude_km.isNone && p.velocity_kmh.isNone then
    (.badRequest "no fields to update", db)
  else
    let ps2 := db.positions.map (fun r => if r.id == pid then applyPosPatch p r else r)
    if ps2 = db.positions then (.notFound, db)
    else (.updated, { db with positions := ps2 })

/-! ### Shared lemmas -/

theorem sortByTsDesc_sorted (l : List PositionRow) : List.Sorted tsGE (sortByTsDesc l) :=
  List.sorted_insertionSort tsGE l

theorem sortByTsDesc_perm (l : List PositionRow) : (sortByTsDesc l).Perm l :=
  List.perm_insertionSort tsGE l

/-! ### C1 — ingestion fallback to cache -/

/-- C1: when the external fetch fails, the ingestion endpoint responds
with the stored sample of greatest timestamp tagged "cache" (state
unchanged) if any sample exists for the tracked object, and with the
502 upstream-failure error if none exists. -/
theorem C1_ingestion_fallback (db : DB) :
    (issRows db = [] → api_iss db none = (.gatewayError, db)) ∧
    (issRows db ≠ [] →
      ∃ r ∈ issRows db,
        (∀ p ∈ issRows db, p.timestamp ≤ r.timestamp) ∧
        api_iss db none = (.cache r.timestamp r.latitude r.longitude r.altitude_km r.velocity_kmh, db)) := by
  constructor
  · intro h
    have hs : sortByTsDesc (issRows db) = [] := by rw [h]; rfl
    simp [api_iss, hs]
  · intro h
    cases hs : sortByTsDesc (issRows db) with
    | nil =>
      have hperm := sortByTsDesc_perm (issRows db)
      rw [hs] at hperm
      exact absurd (List.perm_nil.mp hperm.symm) h
    | cons r rest =>
      refine ⟨r, ?_, ?_, ?_⟩
      · have hr : r ∈ sortByTsDesc (issRows db) := by
          rw [hs]; exact List.mem_cons_self r rest
        exact (sortByTsDesc_perm (issRows db)).mem_iff.mp hr
      · intro p hp
        have hp' : p ∈ sortByTsDesc (issRows db) :=
          (sortByTsDesc_perm (issRows db)).mem_iff.mpr hp
        rw [hs] at hp'
        rcases List.mem_cons.mp hp' with rfl | hp2
        · exact le_refl _
        · have hsor := sortByTsDesc_sorted (issRows db)
          rw [hs] at hsor
          exact List.rel_of_sorted_cons hsor p hp2
      · simp [api_iss, hs]

def dbC1 : DB :=
  ⟨[⟨1, 25544, "ISS"⟩],
   [⟨1, 1, 100, 5, 6, none, some 3⟩, ⟨2, 1, 200, 7, 8, some 4, none⟩], 2, 3⟩

theorem C1_ingestion_fallback_witness :
    issRows dbC1 ≠ [] ∧
    ∃ r ∈ issRows dbC1,
      (∀ p ∈ issRows dbC1, p.timestamp ≤ r.timestamp) ∧
      api_iss dbC1 none = (.cache r.timestamp r.latitude r.longitude r.altitude_km r.velocity_kmh, dbC1) :=
  ⟨by decide, (C1_ingestion_fallback dbC1).2 (by decide)⟩

/-! ### C2 — bounded, chronological history query -/

/-- C2: for every stored state and caller limit `n` (default 50 when
absent), the history query returns exactly `min (clamp n) total` rows,
ordered oldest-to-newest (non-decreasing timestamps), and those rows
are the most recent ones: they split off from the stored rows so that
every excluded timestamp is at most every included one. -/
theorem C2_history_query (db : DB) (n : Int) :
    (historyRows db n).length = min (clampLimit n) (issRows db).length ∧
    (historyRows db n).Pairwise (fun a b => a.timestamp ≤ b.timestamp) ∧
    (∃ kept dropped : List PositionRow,
      historyRows db n = (kept.map projHist).reverse ∧
      (kept ++ dropped).Perm (issRows db) ∧
      kept.length = min (clampLimit n) (issRows db).length ∧
      ∀ p ∈ dropped, ∀ q ∈ kept, p.timestamp ≤ q.timestamp) ∧
    api_history db none = .rows (historyRows db 50) := by
  refine ⟨?_, ?_, ?_, rfl⟩
  · unfold historyRows
    rw [List.length_reverse, List.length_map, List.length_take,
      (sortByTsDesc_perm (issRows db)).length_eq]
  · unfold historyRows
    rw [List.pairwise_reverse, List.pairwise_map]
    exact List.Pairwise.sublist (List.take_sublist _ _) (sortByTsDesc_sorted (issRows db))
  · refine ⟨(sortByTsDesc (issRows db)).take (clampLimit n),
      (sortByTsDesc (issRows db)).drop (clampLimit n), rfl, ?_, ?_, ?_⟩
    · rw [List.take_append_drop]
      exact sortByTsDesc_perm _
    · rw [List.length_take, (sortByTsDesc_perm (issRows db)).length_eq]
    · intro p hp q hq
      exact (sortByTsDesc_sorted (issRows db)).rel_of_mem_take_of_mem_drop hq hp

theorem C2_history_query_witness :
    (historyRows dbC1 1).length = min (clampLimit 1) (issRows dbC1).length ∧
    (historyRows dbC1 1).Pairwise (fun a b => a.timestamp ≤ b.timestamp) ∧
    (∃ kept dropped : List PositionRow,
      historyRows dbC1 1 = (kept.map projHist).reverse ∧
      (kept ++ dropped).Perm (issRows dbC1) ∧
      kept.length = min (clampLimit 1) (issRows dbC1).length ∧
      ∀ p ∈ dropped, ∀ q ∈ kept, p.timestamp ≤ q.timestamp) ∧
    api_history dbC1 none = .rows (historyRows dbC1 50) :=
  C2_history_query dbC1 1

/-! ### C3 — live ingestion normalizes and appends exactly one row -/

theorem get_satellite_id_frame (db : DB) (race : Option Satellite) (norad : Int) (nm : String) :
    (get_satellite_id db race norad nm).2.positions = db.positions ∧
    (get_satellite_id db race norad nm).2.nextPosId = db.nextPosId := by
  cases race with
  | none =>
    unfold get_satellite_id
    cases db.sats.find? (fun s => s.norad_id == norad) with
    | some s => exact ⟨rfl, rfl⟩
    | none =>
      dsimp only
      cases db.sats.find? (fun s => s.norad_id == norad) with
      | some s => exact ⟨rfl, rfl⟩
      | none => exact ⟨rfl, rfl⟩
  | some rs =>
    unfold get_satellite_id
    cases db.sats.find? (fun s => s.norad_id == norad) with
    | some s => exact ⟨rfl, rfl⟩
    | none =>
      dsimp only
      cases (db.sats ++ [rs]).find? (fun s => s.norad_id == norad) with
      | some s => exact ⟨rfl, rfl⟩
      | none => exact ⟨rfl, rfl⟩

/-- C3: a successful live fetch responds "live" with the timestamp
truncated to integer seconds and altitude/velocity defaulting to 0 when
absent, and appends exactly one new sample row holding those normalized
values (no de-duplication against any previous row). -/
theorem C3_live_ingestion (db : DB) (d : Payload) :
    (api_iss db (some d)).1 =
      .live (pyTrunc d.timestamp) d.latitude d.longitude (d.altitude.getD 0) (d.velocity.getD 0) ∧
    (api_iss db (some d)).2.positions =
      db.positions ++
        [⟨db.nextPosId, (get_satellite_id db none issNorad (d.name.getD "ISS")).1,
          pyTrunc d.timestamp, d.latitude, d.longitude,
          some (d.altitude.getD 0), some (d.velocity.getD 0)⟩] ∧
    (api_iss db (some d)).2.positions.length = db.positions.length + 1 := by
  have hf := get_satellite_id_frame db none issNorad (d.name.getD "ISS")
  refine ⟨rfl, ?_, ?_⟩
  · simp only [api_iss]
    rw [hf.1, hf.2]
  · simp only [api_iss]
    rw [hf.1]
    simp

/-! ### C4 — identity resolver -/

theorem find_sat_eq_of_mem {l : List Satellite} {norad : Int}
    (hu : l.Pairwise (fun a b => a.norad_id ≠ b.norad_id)) {s : Satellite}
    (hs : s ∈ l) (hn : s.norad_id = norad) :
    l.find? (fun t => t.norad_id == norad) = some s := by
  induction l with
  | nil => cases hs
  | cons a l ih =>
    rcases List.pairwise_cons.mp hu with ⟨ha, hl⟩
    rcases List.mem_cons.mp hs with rfl | hmem
    · rw [List.find?_cons_of_pos]
      simp [hn]
    · rw [List.find?_cons_of_neg]
      · exact ih hl hmem
      · simp only [beq_iff_eq]
        intro h2
        exact (ha s hmem) (h2.trans hn.symm)

/-- C4: the identity resolver returns the key of an existing record
with the given external identifier (state unchanged, whatever happens
concurrently); otherwise it inserts a fresh record and returns its key;
and when a concurrent insert wins the race (uniqueness violation on
the insert), it re-fetches and returns the winning key. -/
theorem C4_identity_resolver (db : DB) (norad : Int) (nm : String) :
    (∀ s ∈ db.sats, noradUnique db → s.norad_id = norad →
      ∀ race, get_satellite_id db race norad nm = (s.id, db)) ∧
    ((∀ s ∈ db.sats, s.norad_id ≠ norad) →
      get_satellite_id db none norad nm =
        (db.nextSatId,
          { db with
            sats := db.sats ++ [⟨db.nextSatId, norad, nm⟩],
            nextSatId := db.nextSatId + 1 })) ∧
    (∀ rs : Satellite, (∀ s ∈ db.sats, s.norad_id ≠ norad) → rs.norad_id = norad →
      (get_satellite_id db (some rs) norad nm).1 = rs.id) := by
  refine ⟨?_, ?_, ?_⟩
  · intro s hs hu hn race
    unfold get_satellite_id
    rw [find_sat_eq_of_mem hu hs hn]
  · intro h
    have hfind : db.sats.find? (fun t => t.norad_id == norad) = none := by
      rw [List.find?_eq_none]
      intro x hx
      simp only [beq_iff_eq]
      exact h x hx
    unfold get_satellite_id
    simp only [hfind]
  · intro rs h hrs
    have hfind : db.sats.find? (fun t => t.norad_id == norad) = none := by
      rw [List.find?_eq_none]
      intro x hx
      simp only [beq_iff_eq]
      exact h x hx
    have hfind2 : (db.sats ++ [rs]).find? (fun t => t.norad_id == norad) = some rs := by
      rw [List.find?_append, hfind]
      simp [hrs]
    unfold get_satellite_id
    simp only [hfind, hfind2]

def dbC4 : DB := ⟨[⟨1, 25544, "ISS"⟩], [], 2, 1⟩

theorem C4_identity_resolver_witness :
    (⟨1, 25544, "ISS"⟩ : Satellite) ∈ dbC4.sats ∧ noradUnique dbC4 ∧
    get_satellite_id dbC4 none 25544 "ISS" = (1, dbC4) :=
  ⟨by decide, by decide,
    (C4_identity_resolver dbC4 25544 "ISS").1 ⟨1, 25544, "ISS"⟩ (by decide) (by decide) rfl none⟩

/-! ### C5 — validation-failure signalling (corrected) -/

def dbEmpty : DB := ⟨[], [], 1, 1⟩

/-- C5 counterexample: a non-integer `limit` query parameter on the
history query does NOT produce a client-error signal — the uncaught
`int()` `ValueError` propagates as an unhandled failure (HTTP 500). -/
theorem C5_counterexample :
    api_history dbEmpty (some "abc") = .unhandled := by decide

/-- C5 (amended): malformed or missing `name`/`norad_id` fields on
satellite creation produce a client-error signal with a descriptive
message, including string-shaped non-integer external identifiers; but
a non-integer `limit` query parameter (history or positions listing)
propagates as an unhandled failure, as does a list-shaped external
identifier on create. -/
theorem C5_validation_signals (db : DB) (s t : String) :
    (∀ norad, create_satellite db none norad =
      (.badRequest "name and norad_id are required", db)) ∧
    (create_satellite db (some (.jstr s)) none =
      (.badRequest "name and norad_id are required", db)) ∧
    (pyStrip s ≠ "" → pyIntOfString t = none →
      create_satellite db (some (.jstr s)) (some (.jstr t)) =
        (.badRequest "norad_id must be integer", db)) ∧
    (pyStrip s ≠ "" → ∀ ne, create_satellite db (some (.jstr s)) (some (.jarr ne)) =
      (.unhandled, db)) ∧
    (pyIntOfString t = none → api_history db (some t) = .unhandled) ∧
    (pyIntOfString t = none → ∀ a b, list_positions db a b (some t) = .unhandled) := by
  refine ⟨?_, ?_, ?_, ?_, ?_, ?_⟩
  · intro norad
    simp [create_satellite, nameField]
  · by_cases hs : s = ""
    · simp [create_satellite, nameField, jTruthy, hs, jIsNone]
    · have : (s != "") = true := by simp [hs]
      simp [create_satellite, nameField, jTruthy, this, jIsNone]
  · intro hnm ht
    have hs0 : s ≠ "" := fun h => hnm (by rw [h]; rfl)
    have htr : (s != "") = true := by simp [hs0]
    have hne : (pyStrip s == "") = false := by
      simp only [beq_eq_false_iff_ne]
      exact hnm
    simp [create_satellite, nameField, jTruthy, htr, hne, jIsNone, pyIntOfJOpt, pyIntOfJ, ht]
  · intro hnm ne
    have hs0 : s ≠ "" := fun h => hnm (by rw [h]; rfl)
    have htr : (s != "") = true := by simp [hs0]
    have hne : (pyStrip s == "") = false := by
      simp only [beq_eq_false_iff_ne]
      exact hnm
    simp [create_satellite, nameField, jTruthy, htr, hne, jIsNone, pyIntOfJOpt, pyIntOfJ]
  · intro ht
    simp [api_history, ht]
  · intro ht a b
    simp [list_positions, ht]

theorem C5_validation_signals_witness :
    pyStrip "iss" ≠ "" ∧ pyIntOfString "abc" = none ∧
    create_satellite dbEmpty (some (.jstr "iss")) (some (.jstr "abc")) =
      (.badRequest "norad_id must be integer", dbEmpty) ∧
    api_history dbEmpty (some "abc") = .unhandled :=
  ⟨by decide, by decide,
    ((C5_validation_signals dbEmpty "iss" "abc").2.2.1 (by decide) (by decide)),
    ((C5_validation_signals dbEmpty "iss" "abc").2.2.2.2.1 (by decide))⟩

/-! ### C6 — duplicate satellite creation conflicts -/

theorem filter_norad_length_one {l : List Satellite} {n : Int}
    (hu : l.Pairwise (fun a b => a.norad_id ≠ b.norad_id)) {s : Satellite}
    (hs : s ∈ l) (hn : s.norad_id = n) :
    (l.filter (fun t => t.norad_id == n)).length = 1 := by
  induction l with
  | nil => cases hs
  | cons a l ih =>
    rcases List.pairwise_cons.mp hu with ⟨ha, hl⟩
    rcases List.mem_cons.mp hs with rfl | hmem
    · rw [List.filter_cons_of_pos (by simp [hn])]
      have hnil : l.filter (fun t => t.norad_id == n) = [] := by
        apply List.filter_eq_nil_iff.mpr
        intro t ht
        simp only [beq_iff_eq]
        intro h2
        exact (ha t ht) (hn.trans h2.symm)
      rw [hnil]
      rfl
    · rw [List.filter_cons_of_neg
        (by simp only [beq_iff_eq]; intro h2; exact (ha s hmem) (h2.trans hn.symm))]
      exact ih hl hmem

/-- C6: when a satellite with the given external identifier already
exists, a second create request with that identifier returns a conflict
signal, the state is unchanged, and exactly one record with that
identifier exists. -/
theorem C6_duplicate_create (db : DB) (s : Satellite) (nm : String)
    (hu : noradUnique db) (hs : s ∈ db.sats) (hnm : pyStrip nm ≠ "") :
    create_satellite db (some (.jstr nm)) (some (.jint s.norad_id)) = (.conflict, db) ∧
    (db.sats.filter (fun t => t.norad_id == s.norad_id)).length = 1 := by
  constructor
  · have hs0 : nm ≠ "" := fun h => hnm (by rw [h]; rfl)
    have htr : (nm != "") = true := by simp [hs0]
    have hne : (pyStrip nm == "") = false := by
      simp only [beq_eq_false_iff_ne]
      exact hnm
    have hany : db.sats.any (fun t => t.norad_id == s.norad_id) = true :=
      List.any_eq_true.mpr ⟨s, hs, by simp⟩
    simp [create_satellite, nameField, jTruthy, htr, hne, jIsNone, pyIntOfJOpt, pyIntOfJ, hany]
  · exact filter_norad_length_one hu hs rfl

def dbC6 : DB := ⟨[⟨1, 25544, "ISS"⟩], [], 2, 1⟩

theorem C6_duplicate_create_witness :
    noradUnique dbC6 ∧ (⟨1, 25544, "ISS"⟩ : Satellite) ∈ dbC6.sats ∧
    create_satellite dbC6 (some (.jstr "Duplicate")) (some (.jint 25544)) = (.conflict, dbC6) ∧
    (dbC6.sats.filter (fun t => t.norad_id == (25544 : Int))).length = 1 :=
  ⟨by decide, by decide,
    (C6_duplicate_create dbC6 ⟨1, 25544, "ISS"⟩ "Duplicate" (by decide) (by decide) (by decide)).1,
    (C6_duplicate_create dbC6 ⟨1, 25544, "ISS"⟩ "Duplicate" (by decide) (by decide) (by decide)).2⟩

/-! ### C7 — partial update: frame property -/

theorem map_ite_id {α : Type} (l : List α) (q : α → Prop) [DecidablePred q] (f : α → α)
    (h : ∀ a ∈ l, ¬ q a) :
    l.map (fun a => if q a then f a else a) = l := by
  induction l with
  | nil => rfl
  | cons a l ih =>
    rw [List.map_cons, if_neg (h a (List.mem_cons_self a l)),
      ih (fun x hx => h x (List.mem_cons_of_mem a hx))]

/-- C7: a partial-update request modifies only the fields present in
the body, on the target record only, leaving every other record and
the other table untouched; a request with no recognized fields is
rejected with a client error; a request targeting an absent record is
rejected with a not-found signal.  (Both for satellite and for
position updates.) -/
theorem C7_partial_update (db : DB) (sid pid : Int) (sp : SatPatch) (pp : PosPatch) :
    (update_satellite db sid ⟨none, none⟩ = (.badRequest "no fields to update", db)) ∧
    (sp ≠ ⟨none, none⟩ → (∀ s ∈ db.sats, s.id ≠ sid) →
      update_satellite db sid sp = (.notFound, db)) ∧
    (sp ≠ ⟨none, none⟩ →
      (∀ n, sp.norad_id = some n → ∀ s ∈ db.sats, s.id ≠ sid → s.norad_id ≠ n) →
      (update_satellite db sid sp).2.positions = db.positions ∧
      (update_satellite db sid sp).2.sats =
        db.sats.map (fun s => if s.id == sid then applySatPatch sp s else s)) ∧
    (update_position_row db pid ⟨none, none, none, none, none⟩ =
      (.badRequest "no fields to update", db)) ∧
    (pp ≠ ⟨none, none, none, none, none⟩ → (∀ r ∈ db.positions, r.id ≠ pid) →
      update_position_row db pid pp = (.notFound, db)) ∧
    (pp ≠ ⟨none, none, none, none, none⟩ →
      (update_position_row db pid pp).2.sats = db.sats ∧
      (update_position_row db pid pp).2.positions =
        db.positions.map (fun r => if r.id == pid then applyPosPatch pp r else r)) := by
  have hppcond : pp ≠ ⟨none, none, none, none, none⟩ →
      (pp.timestamp.isNone && pp.latitude.isNone && pp.longitude.isNone &&
        pp.altitude_km.isNone && pp.velocity_kmh.isNone) = false := by
    intro hne
    obtain ⟨a, b, c, d, e⟩ := pp
    cases a <;> cases b <;> cases c <;> cases d <;> cases e <;> simp_all
  have hspcond : sp ≠ ⟨none, none⟩ →
      (sp.name.isNone && sp.norad_id.isNone) = false := by
    intro hne
    obtain ⟨a, b⟩ := sp
    cases a <;> cases b <;> simp_all
  refine ⟨?_, ?_, ?_, ?_, ?_, ?_⟩
  · simp [update_satellite]
  · intro hne habs
    have hmap : db.sats.map (fun s => if s.id = sid then applySatPatch sp s else s) = db.sats :=
      map_ite_id _ _ _ (fun s hsm => habs s hsm)
    have hT : db.sats.any (fun s => s.id == sid) = false := by
      rw [List.any_eq_false]
      intro s hsm
      simp [habs s hsm]
    simp [update_satellite, hspcond hne, hT, hmap]
  · intro hne hno
    have hX : (match sp.norad_id with
        | some n => db.sats.any (fun s => s.norad_id == n && s.id != sid)
        | none => false) = false := by
      cases hsp : sp.norad_id with
      | none => rfl
      | some n =>
        rw [List.any_eq_false]
        intro s hsm
        by_cases hid : s.id = sid
        · simp [hid]
        · simp [hid, hno n hsp s hsm hid]
    by_cases heq : db.sats.map (fun s => if s.id = sid then applySatPatch sp s else s) = db.sats
    · constructor <;> simp [update_satellite, hspcond hne, hX, heq]
    · constructor <;> simp [update_satellite, hspcond hne, hX, heq]
  · simp [update_position_row]
  · intro hne habs
    have hmap : db.positions.map (fun r => if r.id = pid then applyPosPatch pp r else r)
        = db.positions :=
      map_ite_id _ _ _ (fun r hrm => habs r hrm)
    simp [update_position_row, hppcond hne, hmap]
  · intro hne
    by_cases heq : db.positions.map (fun r => if r.id = pid then applyPosPatch pp r else r)
        = db.positions
    · constructor <;> simp [update_position_row, hppcond hne, heq]
    · constructor <;> simp [update_position_row, hppcond hne, heq]

def dbC7 : DB := ⟨[⟨1, 25544, "ISS"⟩, ⟨2, 20580, "HST"⟩], [⟨1, 1, 100, 5, 6, none, none⟩], 3, 2⟩

theorem C7_partial_update_witness :
    ((⟨some "Station", none⟩ : SatPatch) ≠ (⟨none, none⟩ : SatPatch)) ∧
    (update_satellite dbC7 1 ⟨some "Station", none⟩).2.positions = dbC7.positions ∧
    (update_satellite dbC7 1 ⟨some "Station", none⟩).2.sats =
      dbC7.sats.map (fun s => if s.id == 1 then applySatPatch ⟨some "Station", none⟩ s else s) ∧
    (update_position_row dbC7 2 ⟨some 200, none, none, none, none⟩ = (.notFound, dbC7)) := by
  refine ⟨by decide, ?_, ?_, ?_⟩
  · exact ((C7_partial_update dbC7 1 2 ⟨some "Station", none⟩
      ⟨some 200, none, none, none, none⟩).2.2.1 (by decide)
      (fun n hn => Option.noConfusion hn)).1
  · exact ((C7_partial_update dbC7 1 2 ⟨some "Station", none⟩
      ⟨some 200, none, none, none, none⟩).2.2.1 (by decide)
      (fun n hn => Option.noConfusion hn)).2
  · exact (C7_partial_update dbC7 1 2 ⟨some "Station", none⟩
      ⟨some 200, none, none, none, none⟩).2.2.2.2.1 (by decide) (by decide)

/-! ### C8 — satellite deletion cascades to positions -/

/-- C8: deleting a satellite by an existing key removes that satellite
row and (by the cascade foreign key) all of its position samples, so a
subsequent positions query for that key is empty; deleting an absent
key returns not-found and leaves the state unchanged. -/
theorem C8_delete_cascade (db : DB) (sid : Int) :
    ((∃ s ∈ db.sats, s.id = sid) →
      (delete_satellite db sid).1 = .deleted ∧
      (delete_satellite db sid).2.sats = db.sats.filter (fun s => s.id != sid) ∧
      (delete_satellite db sid).2.positions =
        db.positions.filter (fun p => p.satellite_id != sid) ∧
      ∀ k, positionsFor (delete_satellite db sid).2 sid k = []) ∧
    ((∀ s ∈ db.sats, s.id ≠ sid) → delete_satellite db sid = (.notFound, db)) := by
  constructor
  · rintro ⟨s, hs, hid⟩
    have hany : db.sats.any (fun t => t.id == sid) = true :=
      List.any_eq_true.mpr ⟨s, hs, by simp [hid]⟩
    refine ⟨?_, ?_, ?_, ?_⟩
    · simp [delete_satellite, hany]
    · simp [delete_satellite, hany]
    · simp [delete_satellite, hany]
    · intro k
      have h2 : (delete_satellite db sid).2.positions =
          db.positions.filter (fun p => p.satellite_id != sid) := by
        simp [delete_satellite, hany]
      unfold positionsFor
      rw [h2]
      have hnil : (db.positions.filter (fun p => p.satellite_id != sid)).filter
          (fun p => p.satellite_id == sid) = [] := by
        apply List.filter_eq_nil_iff.mpr
        intro p hp
        have hne := (List.mem_filter.mp hp).2
        simp at hne ⊢
        exact hne
      rw [hnil]
      simp [sortByTsDesc, List.insertionSort]
  · intro habs
    have hany : db.sats.any (fun t => t.id == sid) = false := by
      rw [List.any_eq_false]
      intro t htm
      simp [habs t htm]
    simp [delete_satellite, hany]

def dbC8 : DB :=
  ⟨[⟨1, 25544, "ISS"⟩], [⟨1, 1, 100, 5, 6, none, none⟩, ⟨2, 1, 200, 7, 8, none, none⟩], 2, 3⟩

theorem C8_delete_cascade_witness :
    (∃ s ∈ dbC8.sats, s.id = 1) ∧
    (delete_satellite dbC8 1).1 = .deleted ∧
    positionsFor (delete_satellite dbC8 1).2 1 50 = [] :=
  ⟨by decide,
    ((C8_delete_cascade dbC8 1).1 (by decide)).1,
    ((C8_delete_cascade dbC8 1).1 (by decide)).2.2.2 50⟩

/-! ### C9 — create-then-read round trip for positions -/

/-- C9: creating a position sample (valid latitude/longitude with any
supplied timestamp, altitude, velocity) succeeds, stores exactly the
normalized record it returns, and reading positions back for that
satellite yields that identical record: any returned row carrying the
new key is exactly the created record, and the created record is among
the returned rows whenever the stored samples of that satellite fit the query
limit. -/
theorem C9_roundtrip (db : DB) (now t sid : Int) (la lo : Rat) (oa ov : Option Rat)
    (row : PositionRow) (db2 : DB)
    (hrow : row = ⟨db.nextPosId, sid, t, la, lo, oa, ov⟩)
    (hdb2 : db2 = { db with positions := db.positions ++ [row], nextPosId := db.nextPosId + 1 })
    (hfresh : posIdsFresh db)
    (hsat : db.sats.any (fun s => s.id == sid) = true)
    (ht : t ≠ 0) :
    create_position db now
        ⟨some (.jint sid), some (.jint t), some (.jnum la), some (.jnum lo),
          oa.map JValue.jnum, ov.map JValue.jnum⟩ = (.created row, db2) ∧
    (∀ k, ∀ q ∈ positionsFor db2 sid k, q.id = row.id → q = row) ∧
    ((db.positions.filter (fun p => p.satellite_id == sid)).length < 1000 →
      row ∈ positionsFor db2 sid 1000) := by
  subst hrow
  subst hdb2
  refine ⟨?_, ?_, ?_⟩
  · cases oa <;> cases ov <;>
      simp [create_position, tsSentinel, pyIntOfJOpt, pyIntOfJ, pyFloatOfJOpt, pyFloatOfJ,
        nullSentinel, hsat, ht]
  · intro k q hq hid
    have hq1 : q ∈ sortByTsDesc (((db.positions ++
        [(⟨db.nextPosId, sid, t, la, lo, oa, ov⟩ : PositionRow)]).filter (fun p => p.satellite_id == sid))) :=
      List.mem_of_mem_take hq
    have hq2 : q ∈ (db.positions ++
        [(⟨db.nextPosId, sid, t, la, lo, oa, ov⟩ : PositionRow)]).filter (fun p => p.satellite_id == sid) :=
      (sortByTsDesc_perm _).subset hq1
    have hq3 : q ∈ db.positions ++ [(⟨db.nextPosId, sid, t, la, lo, oa, ov⟩ : PositionRow)] :=
      List.mem_of_mem_filter hq2
    rcases List.mem_append.mp hq3 with h | h
    · have := hfresh q h
      simp at hid
      omega
    · simpa using h
  · intro hlen
    have hfilt : ((db.positions ++ [(⟨db.nextPosId, sid, t, la, lo, oa, ov⟩ : PositionRow)]).filter
        (fun p => p.satellite_id == sid)) =
        db.positions.filter (fun p => p.satellite_id == sid) ++
          [(⟨db.nextPosId, sid, t, la, lo, oa, ov⟩ : PositionRow)] := by
      rw [List.filter_append]
      simp
    unfold positionsFor
    have hsort : (⟨db.nextPosId, sid, t, la, lo, oa, ov⟩ : PositionRow) ∈
        sortByTsDesc (((db.positions ++ [(⟨db.nextPosId, sid, t, la, lo, oa, ov⟩ : PositionRow)]).filter
          (fun p => p.satellite_id == sid))) := by
      apply (sortByTsDesc_perm _).mem_iff.mpr
      rw [hfilt]
      simp
    rw [List.take_of_length_le]
    · exact hsort
    · rw [(sortByTsDesc_perm _).length_eq, hfilt]
      simp only [List.length_append, List.length_cons, List.length_nil]
      omega

def dbC9 : DB := ⟨[⟨1, 25544, "ISS"⟩], [], 2, 1⟩

theorem C9_roundtrip_witness :
    posIdsFresh dbC9 ∧ (dbC9.sats.any (fun s => s.id == (1 : Int))) = true ∧ (500 : Int) ≠ 0 ∧
    create_position dbC9 999
        ⟨some (.jint 1), some (.jint 500), some (.jnum 10), some (.jnum 20),
          (some (400 : Rat)).map JValue.jnum, (none : Option Rat).map JValue.jnum⟩ =
      (.created ⟨1, 1, 500, 10, 20, some 400, none⟩,
        ⟨[⟨1, 25544, "ISS"⟩], [⟨1, 1, 500, 10, 20, some 400, none⟩], 2, 2⟩) ∧
    (⟨1, 1, 500, 10, 20, some 400, none⟩ : PositionRow) ∈
      positionsFor ⟨[⟨1, 25544, "ISS"⟩], [⟨1, 1, 500, 10, 20, some 400, none⟩], 2, 2⟩ 1 1000 :=
  ⟨by decide, by decide, by decide,
    (C9_roundtrip dbC9 999 500 1 10 20 (some 400) none ⟨1, 1, 500, 10, 20, some 400, none⟩
      ⟨[⟨1, 25544, "ISS"⟩], [⟨1, 1, 500, 10, 20, some 400, none⟩], 2, 2⟩ rfl rfl
      (by decide) (by decide) (by decide)).1,
    (C9_roundtrip dbC9 999 500 1 10 20 (some 400) none ⟨1, 1, 500, 10, 20, some 400, none⟩
      ⟨[⟨1, 25544, "ISS"⟩], [⟨1, 1, 500, 10, 20, some 400, none⟩], 2, 2⟩ rfl rfl
      (by decide) (by decide) (by decide)).2.2 (by decide)⟩

/-! ### C10 — position-create timestamp sentinel (corrected) -/

def dbC10 : DB := ⟨[⟨1, 25544, "ISS"⟩], [], 2, 1⟩

/-- C10 counterexample: the two-character string 00 passes the
sentinel membership test of app.py:348 but parses to the integer 0, so a
caller CAN create a sample with stored timestamp 0 (here with server
time 1111). -/
theorem C10_counterexample :
    (create_position dbC10 1111
        ⟨some (.jint 1), some (.jstr "00"), some (.jint 10), some (.jint 20), none, none⟩).1
      = .created ⟨1, 1, 0, 10, 20, none, none⟩ ∧ (1111 : Int) ≠ 0 := by
  decide

/-- C10 (amended): a position-create whose timestamp field is the
integer 0, the string zero, the empty string, or absent stores and
returns the current server time instead of the supplied value; but
other textual spellings of zero (such as 00) are not replaced — they
parse to 0 and are stored,
so a caller can still create a timestamp-0 sample. -/
theorem C10_timestamp_default (db : DB) (now sid : Int) (la lo : Rat) (tsIn : Option JValue)
    (hts : tsIn = none ∨ tsIn = some .jnull ∨ tsIn = some (.jstr "") ∨
      tsIn = some (.jstr "0") ∨ tsIn = some (.jint 0))
    (hsat : db.sats.any (fun s => s.id == sid) = true) :
    create_position db now ⟨some (.jint sid), tsIn, some (.jnum la), some (.jnum lo), none, none⟩ =
      (.created ⟨db.nextPosId, sid, now, la, lo, none, none⟩,
        { db with
          positions := db.positions ++ [⟨db.nextPosId, sid, now, la, lo, none, none⟩],
          nextPosId := db.nextPosId + 1 }) ∧
    create_position db now
        ⟨some (.jint sid), some (.jstr "00"), some (.jnum la), some (.jnum lo), none, none⟩ =
      (.created ⟨db.nextPosId, sid, 0, la, lo, none, none⟩,
        { db with
          positions := db.positions ++ [⟨db.nextPosId, sid, 0, la, lo, none, none⟩],
          nextPosId := db.nextPosId + 1 }) := by
  constructor
  · rcases hts with rfl | rfl | rfl | rfl | rfl <;>
      simp [create_position, tsSentinel, pyIntOfJOpt, pyIntOfJ, pyFloatOfJOpt, pyFloatOfJ,
        nullSentinel, hsat]
  · have h00 : pyIntOfString "00" = some 0 := by decide
    have hsent : tsSentinel (some (.jstr "00")) = false := by decide
    simp [create_position, hsent, pyIntOfJOpt, pyIntOfJ, h00, pyFloatOfJOpt, pyFloatOfJ,
      nullSentinel, hsat]

theorem C10_timestamp_default_witness :
    (dbC10.sats.any (fun s => s.id == (1 : Int))) = true ∧
    create_position dbC10 777
        ⟨some (.jint 1), some (.jstr "0"), some (.jnum 10), some (.jnum 20), none, none⟩ =
      (.created ⟨1, 1, 777, 10, 20, none, none⟩,
        { dbC10 with
          positions := dbC10.positions ++ [⟨1, 1, 777, 10, 20, none, none⟩],
          nextPosId := 2 }) :=
  ⟨by decide,
    (C10_timestamp_default dbC10 777 1 10 20 (some (.jstr "0"))
      (Or.inr (Or.inr (Or.inr (Or.inl rfl)))) (by decide)).1⟩
